import Mathlib

/-!
Shallow embedding of the `deep-image-matching` top-level pipeline
(`src/main.py`, function `main`).

The orchestrator reads a configuration, generates image pairs, optionally
rotates images upright, extracts features, matches pairs, optionally rotates
the features back, exports the results to a COLMAP database, and finally
(unless skipped) tries to import `pycolmap` and run the reconstruction.

External collaborators (the `ImageMatching` stage methods, `export_to_colmap`,
`pycolmap`, `reconstruction.main`) live outside the orchestrator; they are
modelled as an environment of fallible functions.  Running `main` produces
either a Python exception or a trace of the collaborator invocations, each
event recording the arguments the orchestrator passed.
-/

namespace DeepImageMatching

/-- A filesystem path, modelled as its list of components.
`pathlib`'s `dir / "name"` appends one component. -/
abbrev Pathname := List String

/-- The `pathlib` `/` operator: append one component to a path. -/
def pathJoin (p : Pathname) (s : String) : Pathname := p ++ [s]

/-- The configuration values `main` reads from `parse_config()`
(`config["general"][...]`, `config["extractor"]["name"]`,
`config["matcher"]["name"]`).  The configuration surface also carries a
camera-model name and a single-camera flag (spec §6); `main` never reads
them, but they are included so that statements can compare what `main`
passes to the export against what was configured. -/
structure Config where
  image_dir : Pathname
  output_dir : Pathname
  matching_strategy : String
  retrieval : String
  pair_file : Pathname
  overlap : Nat
  upright : Bool
  skip_reconstruction : Bool
  extractor_name : String
  matcher_name : String
  camera_model : String
  single_camera : Bool
deriving Repr, DecidableEq

/-- Python exceptions relevant to `main`: `ImportError` (the only class the
code catches), `UnboundLocalError` (reading a local variable before
assignment), and any other exception a collaborator may raise. -/
inductive PyExc where
  | importError
  | unboundLocalError (name : String)
  | other (msg : String)
deriving Repr, DecidableEq

/-- `pycolmap.CameraMode` (enumeration quoted in the source comments). -/
inductive CameraMode where
  | AUTO
  | PER_FOLDER
  | PER_IMAGE
  | SINGLE
deriving Repr, DecidableEq

/-- The arguments `main` passes to `export_to_colmap`. -/
structure ExportArgs where
  img_dir : Pathname
  feature_path : Pathname
  match_path : Pathname
  database_path : Pathname
  camera_model : String
  single_camera : Bool
deriving Repr, DecidableEq

/-- The arguments `main` passes to `reconstruction.main`.  A manually
defined camera list would be a list of camera descriptions; the code leaves
`cameras = None`.  `options` is a dict of reconstruction options; the code
passes `{}`. -/
structure ReconArgs where
  database : Pathname
  image_dir : Pathname
  feature_path : Pathname
  match_path : Pathname
  pair_path : Pathname
  output_dir : Pathname
  camera_mode : CameraMode
  cameras : Option (List String)
  skip_geometric_verification : Bool
  options : List (String × String)
  verbose : Bool
deriving Repr, DecidableEq

/-- One collaborator invocation made by `main`, with the arguments passed. -/
inductive Event where
  | generatePairs (pair_path : Pathname)
  | rotateUprightImages
  | extractFeatures (feature_path : Pathname)
  | matchPairs (feature_path : Pathname) (match_path : Pathname)
  | rotateBackFeatures (feature_path : Pathname)
  | exportToColmap (args : ExportArgs)
  | logError (msg : String)
  | reconstructionMain (args : ReconArgs)
deriving Repr, DecidableEq

/-- Behaviour of the external collaborators during one run: each stage call
either returns its artifact or raises a Python exception.  `pycolmapImport`
is the outcome of `import_module("pycolmap")`. -/
structure Env where
  generate_pairs : Except PyExc Pathname
  rotate_upright_images : Except PyExc Unit
  extract_features : Except PyExc Pathname
  match_pairs : Pathname → Except PyExc Pathname
  rotate_back_features : Pathname → Except PyExc Unit
  export_to_colmap : ExportArgs → Except PyExc Unit
  pycolmapImport : Except PyExc Unit
  reconstruction_main : ReconArgs → Except PyExc Unit

/-- The export call in `main`:
`export_to_colmap(img_dir=imgs_dir, feature_path=..., match_path=...,
database_path=output_dir / "database.db", camera_model="simple-radial",
single_camera=True)`. -/
def exportArgsOf (config : Config) (feature_path match_path : Pathname) : ExportArgs :=
  { img_dir := config.image_dir
    feature_path := feature_path
    match_path := match_path
    database_path := pathJoin config.output_dir "database.db"
    camera_model := "simple-radial"
    single_camera := true }

/-- The reconstruction call in `main`:
`reconstruction.main(database=output_dir / "database_pycolmap.db", ...,
camera_mode=pycolmap.CameraMode.AUTO, cameras=None,
skip_geometric_verification=True, options={}, verbose=False)`. -/
def reconArgsOf (config : Config) (pair_path feature_path match_path : Pathname) : ReconArgs :=
  { database := pathJoin config.output_dir "database_pycolmap.db"
    image_dir := config.image_dir
    feature_path := feature_path
    match_path := match_path
    pair_path := pair_path
    output_dir := config.output_dir
    camera_mode := CameraMode.AUTO
    cameras := none
    skip_geometric_verification := true
    options := []
    verbose := false }

/-- The trace of a run through the export stage: pair generation, upright
rotation when enabled, feature extraction, matching, feature restoration
when enabled, COLMAP export. -/
def stageTrace (config : Config) (pair_path feature_path match_path : Pathname) : List Event :=
  [Event.generatePairs pair_path]
    ++ (if config.upright then [Event.rotateUprightImages] else [])
    ++ [Event.extractFeatures feature_path, Event.matchPairs feature_path match_path]
    ++ (if config.upright then [Event.rotateBackFeatures feature_path] else [])
    ++ [Event.exportToColmap (exportArgsOf config feature_path match_path)]

/-- The `use_pycolmap` local variable after the import block.  The variable
is assigned only inside `if not config["general"]["skip_reconstruction"]:`;
when that branch is not taken it stays unbound (`none`).  Inside the branch,
`except ImportError` catches exactly `ImportError`; any other exception from
the import propagates. -/
def pycolmapStep (config : Config) (env : Env) : Except PyExc (Option Bool) :=
  if config.skip_reconstruction = false then
    match env.pycolmapImport with
    | Except.ok _ => Except.ok (some true)
    | Except.error e =>
        if e = PyExc.importError then Except.ok (some false) else Except.error e
  else Except.ok none

/-- The message `logger.error` receives when the import fails (typo as in
the source). -/
def pycolmapMissingMsg : String := "Pycomlap is not available, skipping reconstruction"

/-- Shallow embedding of `main` (`src/main.py` lines 9–173): run the stages
in program order, threading each artifact to its consumers; return the trace
of collaborator invocations, or the first uncaught Python exception. -/
def mainRun (config : Config) (env : Env) : Except PyExc (List Event) :=
  match env.generate_pairs with
  | Except.error e => Except.error e
  | Except.ok pair_path =>
  match (if config.upright then env.rotate_upright_images else Except.ok ()) with
  | Except.error e => Except.error e
  | Except.ok _ =>
  match env.extract_features with
  | Except.error e => Except.error e
  | Except.ok feature_path =>
  match env.match_pairs feature_path with
  | Except.error e => Except.error e
  | Except.ok match_path =>
  match (if config.upright then env.rotate_back_features feature_path else Except.ok ()) with
  | Except.error e => Except.error e
  | Except.ok _ =>
  match env.export_to_colmap (exportArgsOf config feature_path match_path) with
  | Except.error e => Except.error e
  | Except.ok _ =>
  match pycolmapStep config env with
  | Except.error e => Except.error e
  | Except.ok none =>
      -- `if use_pycolmap:` reads the never-assigned local.
      Except.error (PyExc.unboundLocalError "use_pycolmap")
  | Except.ok (some false) =>
      Except.ok (stageTrace config pair_path feature_path match_path
        ++ [Event.logError pycolmapMissingMsg])
  | Except.ok (some true) =>
      match env.reconstruction_main (reconArgsOf config pair_path feature_path match_path) with
      | Except.error e => Except.error e
      | Except.ok _ =>
          Except.ok (stageTrace config pair_path feature_path match_path
            ++ [Event.reconstructionMain (reconArgsOf config pair_path feature_path match_path)])

/-- The full trace of a successful run: the stages through export, then
either the reconstruction invocation (import succeeded) or the logged
skip (import failed). -/
def expectedTrace (config : Config) (pair_path feature_path match_path : Pathname)
    (pycolmapOk : Bool) : List Event :=
  stageTrace config pair_path feature_path match_path
    ++ (if pycolmapOk then
          [Event.reconstructionMain (reconArgsOf config pair_path feature_path match_path)]
        else [Event.logError pycolmapMissingMsg])

/-- The four axis-aligned rotation angles used for upright normalization. -/
inductive Rot where
  | r0
  | r90
  | r180
  | r270
deriving Repr, DecidableEq

/-- Modelled from the spec: the forward coordinate map of upright
normalization (`rotate_upright_images`), whose implementation is not in the
orchestrator source.  For an original image of width `W` and height `H`, a
pixel `(x, y)` is sent to its position in the rotated image; rotation is one
of the four axis-aligned right-angle rotations only (spec §4.2), and the
forward and inverse maps use the same pixel-indexing convention
(spec §4.3). -/
def normalizeCoord (r : Rot) (W H : Nat) (p : Nat × Nat) : Nat × Nat :=
  match r with
  | Rot.r0 => p
  | Rot.r90 => (p.2, W - 1 - p.1)
  | Rot.r180 => (W - 1 - p.1, H - 1 - p.2)
  | Rot.r270 => (H - 1 - p.2, p.1)

/-- Modelled from the spec: the restoration coordinate map of
`rotate_back_features` (spec §4.3): identity at 0°, `(W-1-x, H-1-y)` at
180°, and at 90°/270° the exact inverse of the corresponding forward
right-angle rotation on the same pixel-indexing convention. -/
def restoreCoord (r : Rot) (W H : Nat) (p : Nat × Nat) : Nat × Nat :=
  match r with
  | Rot.r0 => p
  | Rot.r90 => (W - 1 - p.2, p.1)
  | Rot.r180 => (W - 1 - p.1, H - 1 - p.2)
  | Rot.r270 => (p.2, H - 1 - p.1)

/-- One keypoint: a 2D coordinate and a descriptor vector. -/
structure Keypoint where
  coord : Nat × Nat
  desc : List Int
deriving Repr, DecidableEq

/-- Modelled from the spec: `rotate_back_features` rewrites each keypoint
coordinate of a per-image KeypointSet through the inverse rotation, a
coordinate translation only — descriptors, order and length are untouched
(spec §3 lifecycle: "mutated in place by OrientationRestorer (coordinate
translation only)"). -/
def rotateBackKeypoints (r : Rot) (W H : Nat) (ks : List Keypoint) : List Keypoint :=
  ks.map fun k => { k with coord := restoreCoord r W H k.coord }

/-- Any successful run has `skip_reconstruction` unset and its trace is the
stage trace followed by either the reconstruction call or the logged skip:
inversion of `mainRun` on `Except.ok`. -/
theorem mainRun_ok_shape (config : Config) (env : Env) (t : List Event)
    (h : mainRun config env = Except.ok t) :
    config.skip_reconstruction = false ∧
      ∃ p f m ok, t = expectedTrace config p f m ok := by
  unfold mainRun at h
  split at h
  · exact absurd h (by simp)
  rename_i p hp
  split at h
  · exact absurd h (by simp)
  split at h
  · exact absurd h (by simp)
  rename_i f hf
  split at h
  · exact absurd h (by simp)
  rename_i m hm
  split at h
  · exact absurd h (by simp)
  split at h
  · exact absurd h (by simp)
  split at h
  · exact absurd h (by simp)
  · -- `use_pycolmap` unbound: the run raised, contradiction.
    exact absurd h (by simp)
  · -- import failed with ImportError: trace ends with the logged skip.
    rename_i hstep
    have hskip : config.skip_reconstruction = false := by
      by_contra hne
      have hs : config.skip_reconstruction = true := by
        cases hc : config.skip_reconstruction
        · exact absurd hc hne
        · rfl
      rw [pycolmapStep, hs] at hstep
      simp at hstep
    injection h with h
    exact ⟨hskip, p, f, m, false, by simp [expectedTrace, h]⟩
  · -- import succeeded: trace ends with the reconstruction call.
    rename_i hstep
    split at h
    · exact absurd h (by simp)
    · have hskip : config.skip_reconstruction = false := by
        by_contra hne
        have hs : config.skip_reconstruction = true := by
          cases hc : config.skip_reconstruction
          · exact absurd hc hne
          · rfl
        rw [pycolmapStep, hs] at hstep
        simp at hstep
      injection h with h
      exact ⟨hskip, p, f, m, true, by simp [expectedTrace, h]⟩

/-- When every stage through the export succeeds, `mainRun` reduces to the
pycolmap import/reconstruction phase. -/
theorem mainRun_eq_pycolmapPhase (config : Config) (env : Env) (p f m : Pathname)
    (hp : env.generate_pairs = Except.ok p)
    (hru : config.upright = true → env.rotate_upright_images = Except.ok ())
    (hf : env.extract_features = Except.ok f)
    (hm : env.match_pairs f = Except.ok m)
    (hrb : config.upright = true → env.rotate_back_features f = Except.ok ())
    (hex : env.export_to_colmap (exportArgsOf config f m) = Except.ok ()) :
    mainRun config env =
      match pycolmapStep config env with
      | Except.error e => Except.error e
      | Except.ok none => Except.error (PyExc.unboundLocalError "use_pycolmap")
      | Except.ok (some false) => Except.ok (expectedTrace config p f m false)
      | Except.ok (some true) =>
          match env.reconstruction_main (reconArgsOf config p f m) with
          | Except.error e => Except.error e
          | Except.ok _ => Except.ok (expectedTrace config p f m true) := by
  cases hu : config.upright
  · simp [mainRun, hp, hf, hm, hex, hu, expectedTrace, stageTrace]
  · simp [mainRun, hp, hru hu, hf, hm, hrb hu, hex, hu, expectedTrace, stageTrace]

/-- A reconstruction event occurs in a successful trace only with the
arguments `main` hard-codes, and only when the import succeeded. -/
theorem reconMain_mem_expectedTrace (config : Config) (p f m : Pathname) (ok : Bool)
    (a : ReconArgs) (h : Event.reconstructionMain a ∈ expectedTrace config p f m ok) :
    a = reconArgsOf config p f m ∧ ok = true := by
  cases ok <;> cases hu : config.upright <;>
    simp [expectedTrace, stageTrace, hu] at h <;> simp [h]

/-- The export event occurs in every successful trace, exactly with the
arguments `main` passes. -/
theorem exportToColmap_mem_expectedTrace (config : Config) (p f m : Pathname) (ok : Bool)
    (a : ExportArgs) :
    Event.exportToColmap a ∈ expectedTrace config p f m ok ↔ a = exportArgsOf config f m := by
  cases ok <;> cases hu : config.upright <;>
    simp [expectedTrace, stageTrace, hu]

/-- The upright-rotation event occurs in a successful trace exactly when the
upright flag is set. -/
theorem rotateUpright_mem_expectedTrace (config : Config) (p f m : Pathname) (ok : Bool) :
    Event.rotateUprightImages ∈ expectedTrace config p f m ok ↔ config.upright = true := by
  cases ok <;> cases hu : config.upright <;>
    simp [expectedTrace, stageTrace, hu]

/-- The feature-restoration event occurs in a successful trace exactly when
the upright flag is set, and then only on the extracted feature path. -/
theorem rotateBack_mem_expectedTrace (config : Config) (p f m : Pathname) (ok : Bool)
    (f' : Pathname) :
    Event.rotateBackFeatures f' ∈ expectedTrace config p f m ok ↔
      config.upright = true ∧ f' = f := by
  cases ok <;> cases hu : config.upright <;>
    simp [expectedTrace, stageTrace, hu]

/-- A concrete configuration exercising every option: upright correction on,
reconstruction not skipped, and configured camera values that differ from the
constants `main` passes to the export. -/
def cfgBase : Config :=
  { image_dir := ["data", "images"]
    output_dir := ["out"]
    matching_strategy := "sequential"
    retrieval := "netvlad"
    pair_file := ["out", "pairs.txt"]
    overlap := 2
    upright := true
    skip_reconstruction := false
    extractor_name := "superpoint"
    matcher_name := "lightglue"
    camera_model := "pinhole"
    single_camera := false }

/-- The same configuration with the skip-reconstruction flag set. -/
def cfgSkip : Config := { cfgBase with skip_reconstruction := true }

/-- Concrete artifact paths produced by the collaborators below. -/
def pPath : Pathname := ["out", "pairs.txt"]

/-- Concrete feature artifact path. -/
def fPath : Pathname := ["out", "features.h5"]

/-- Concrete match artifact path. -/
def mPath : Pathname := ["out", "matches.h5"]

/-- Collaborators that all succeed. -/
def envOkAll : Env :=
  { generate_pairs := Except.ok pPath
    rotate_upright_images := Except.ok ()
    extract_features := Except.ok fPath
    match_pairs := fun _ => Except.ok mPath
    rotate_back_features := fun _ => Except.ok ()
    export_to_colmap := fun _ => Except.ok ()
    pycolmapImport := Except.ok ()
    reconstruction_main := fun _ => Except.ok () }

/-- Collaborators that all succeed except the `pycolmap` import. -/
def envNoPycolmap : Env := { envOkAll with pycolmapImport := Except.error PyExc.importError }

/-- Collaborators where pair generation raises. -/
def envGpFail : Env := { envOkAll with generate_pairs := Except.error (PyExc.other "boom") }

/-- The reference run: with `cfgBase` and all collaborators succeeding, the
pipeline completes and its trace ends in the reconstruction invocation. -/
theorem mainRun_cfgBase_eval :
    mainRun cfgBase envOkAll = Except.ok (expectedTrace cfgBase pPath fPath mPath true) := rfl

/-- C8: for every rotation angle in {0°, 90°, 180°, 270°} and every pixel
coordinate in the image's coordinate range (corners and edges included),
applying the forward normalization coordinate map and then the restoration
map is the identity, exactly, on the integer pixel grid. -/
theorem rotation_round_trip (r : Rot) (W H x y : Nat) (hx : x < W) (hy : y < H) :
    restoreCoord r W H (normalizeCoord r W H (x, y)) = (x, y) := by
  cases r <;> simp [normalizeCoord, restoreCoord] <;> omega

/-- The round trip at a concrete corner of a 7×5 image, rotated by 90°. -/
theorem rotation_round_trip_witness :
    (0 : Nat) < 7 ∧ (0 : Nat) < 5 ∧
      restoreCoord Rot.r90 7 5 (normalizeCoord Rot.r90 7 5 (0, 0)) = (0, 0) :=
  ⟨by decide, by decide, rotation_round_trip Rot.r90 7 5 0 0 (by decide) (by decide)⟩

/-- C1: contrary to the claim, a run whose configuration sets the
skip-reconstruction flag does not terminate normally after the database
export.  `use_pycolmap` is assigned only inside
`if not config["general"]["skip_reconstruction"]:`, so the subsequent
`if use_pycolmap:` reads an unbound local and the run raises
`UnboundLocalError` right after the export, even when every stage
succeeded. -/
theorem skip_reconstruction_unbound_local (config : Config) (env : Env) (p f m : Pathname)
    (hskip : config.skip_reconstruction = true)
    (hp : env.generate_pairs = Except.ok p)
    (hru : config.upright = true → env.rotate_upright_images = Except.ok ())
    (hf : env.extract_features = Except.ok f)
    (hm : env.match_pairs f = Except.ok m)
    (hrb : config.upright = true → env.rotate_back_features f = Except.ok ())
    (hex : env.export_to_colmap (exportArgsOf config f m) = Except.ok ()) :
    mainRun config env = Except.error (PyExc.unboundLocalError "use_pycolmap") := by
  rw [mainRun_eq_pycolmapPhase config env p f m hp hru hf hm hrb hex]
  simp [pycolmapStep, hskip]

/-- The unbound-local crash at the concrete skip-reconstruction run. -/
theorem skip_reconstruction_unbound_local_witness :
    mainRun cfgSkip envOkAll = Except.error (PyExc.unboundLocalError "use_pycolmap") :=
  skip_reconstruction_unbound_local cfgSkip envOkAll pPath fPath mPath rfl rfl
    (fun _ => rfl) rfl rfl (fun _ => rfl) rfl

/-- C2 counterexample: in the concrete all-success run, the reconstruction
engine is invoked, yet the database path passed to it
(`out/database_pycolmap.db`) differs from the path `export_to_colmap` wrote
(`out/database.db`), refuting the claim that the two are equal. -/
theorem reconDatabasePath_ne_export_concrete :
    mainRun cfgBase envOkAll = Except.ok (expectedTrace cfgBase pPath fPath mPath true) ∧
      Event.reconstructionMain (reconArgsOf cfgBase pPath fPath mPath)
        ∈ expectedTrace cfgBase pPath fPath mPath true ∧
      Event.exportToColmap (exportArgsOf cfgBase fPath mPath)
        ∈ expectedTrace cfgBase pPath fPath mPath true ∧
      (reconArgsOf cfgBase pPath fPath mPath).database
        ≠ (exportArgsOf cfgBase fPath mPath).database_path :=
  ⟨mainRun_cfgBase_eval, by decide, by decide, by decide⟩

/-- C2 (amended): whenever a completed run invokes the reconstruction
engine, the database path it passes is `output_dir / "database_pycolmap.db"`
— a path distinct from the database `export_to_colmap` wrote in the same
run, which is `output_dir / "database.db"`. -/
theorem reconDatabasePath_distinct (config : Config) (env : Env) (t : List Event)
    (a : ReconArgs) (h : mainRun config env = Except.ok t)
    (ha : Event.reconstructionMain a ∈ t) :
    a.database = pathJoin config.output_dir "database_pycolmap.db" ∧
      ∃ ea : ExportArgs, Event.exportToColmap ea ∈ t ∧
        ea.database_path = pathJoin config.output_dir "database.db" ∧
        a.database ≠ ea.database_path := by
  obtain ⟨-, p, f, m, ok, rfl⟩ := mainRun_ok_shape config env t h
  obtain ⟨rfl, -⟩ := reconMain_mem_expectedTrace config p f m ok a ha
  refine ⟨rfl, exportArgsOf config f m,
    (exportToColmap_mem_expectedTrace config p f m ok _).mpr rfl, rfl, ?_⟩
  intro hcontra
  simp [reconArgsOf, exportArgsOf, pathJoin] at hcontra

/-- The distinct-path fact at the concrete all-success run. -/
theorem reconDatabasePath_distinct_witness :
    (reconArgsOf cfgBase pPath fPath mPath).database
        = pathJoin cfgBase.output_dir "database_pycolmap.db" ∧
      ∃ ea : ExportArgs,
        Event.exportToColmap ea ∈ expectedTrace cfgBase pPath fPath mPath true ∧
          ea.database_path = pathJoin cfgBase.output_dir "database.db" ∧
          (reconArgsOf cfgBase pPath fPath mPath).database ≠ ea.database_path :=
  reconDatabasePath_distinct cfgBase envOkAll _ (reconArgsOf cfgBase pPath fPath mPath)
    mainRun_cfgBase_eval (by decide)

/-- C3 counterexample: with a configuration whose camera model is
`"pinhole"` and whose single-camera flag is off, the completed run still
exports with camera model `"simple-radial"` and single-camera on, refuting
the claim that the export receives the configured values. -/
theorem exportCameraArgs_ignore_config_concrete :
    mainRun cfgBase envOkAll = Except.ok (expectedTrace cfgBase pPath fPath mPath true) ∧
      Event.exportToColmap (exportArgsOf cfgBase fPath mPath)
        ∈ expectedTrace cfgBase pPath fPath mPath true ∧
      (exportArgsOf cfgBase fPath mPath).camera_model ≠ cfgBase.camera_model ∧
      (exportArgsOf cfgBase fPath mPath).single_camera ≠ cfgBase.single_camera :=
  ⟨mainRun_cfgBase_eval, by decide, by decide, by decide⟩

/-- C3 (amended): the camera model name and single-camera flag the export
receives are the fixed constants `"simple-radial"` and `true`, for every
configuration and every completed run — `main` never reads camera settings
from the configuration surface. -/
theorem exportCameraArgs_constant (config : Config) (env : Env) (t : List Event)
    (a : ExportArgs) (h : mainRun config env = Except.ok t)
    (ha : Event.exportToColmap a ∈ t) :
    a.camera_model = "simple-radial" ∧ a.single_camera = true := by
  obtain ⟨-, p, f, m, ok, rfl⟩ := mainRun_ok_shape config env t h
  have hxa := (exportToColmap_mem_expectedTrace config p f m ok a).mp ha
  subst hxa
  exact ⟨rfl, rfl⟩

/-- The constant export camera arguments at the concrete run. -/
theorem exportCameraArgs_constant_witness :
    (exportArgsOf cfgBase fPath mPath).camera_model = "simple-radial" ∧
      (exportArgsOf cfgBase fPath mPath).single_camera = true :=
  exportCameraArgs_constant cfgBase envOkAll _ (exportArgsOf cfgBase fPath mPath)
    mainRun_cfgBase_eval (by decide)

/-- C4: in every run with the skip flag unset whose `pycolmap` import fails
with `ImportError` (all other collaborators succeeding), the pipeline logs
the failure, invokes no reconstruction, and completes normally: the export
is the last pipeline stage in the trace. -/
theorem pycolmap_missing_skips_reconstruction (config : Config) (env : Env) (p f m : Pathname)
    (hskip : config.skip_reconstruction = false)
    (himp : env.pycolmapImport = Except.error PyExc.importError)
    (hp : env.generate_pairs = Except.ok p)
    (hru : config.upright = true → env.rotate_upright_images = Except.ok ())
    (hf : env.extract_features = Except.ok f)
    (hm : env.match_pairs f = Except.ok m)
    (hrb : config.upright = true → env.rotate_back_features f = Except.ok ())
    (hex : env.export_to_colmap (exportArgsOf config f m) = Except.ok ()) :
    mainRun config env = Except.ok (expectedTrace config p f m false) ∧
      Event.logError pycolmapMissingMsg ∈ expectedTrace config p f m false ∧
      (∀ a : ReconArgs, Event.reconstructionMain a ∉ expectedTrace config p f m false) ∧
      Event.exportToColmap (exportArgsOf config f m) ∈ expectedTrace config p f m false := by
  refine ⟨?_, ?_, ?_, ?_⟩
  · rw [mainRun_eq_pycolmapPhase config env p f m hp hru hf hm hrb hex]
    simp [pycolmapStep, hskip, himp]
  · cases hu : config.upright <;> simp [expectedTrace, stageTrace, hu]
  · intro a hmem
    obtain ⟨-, hfalse⟩ := reconMain_mem_expectedTrace config p f m false a hmem
    exact absurd hfalse (by simp)
  · exact (exportToColmap_mem_expectedTrace config p f m false _).mpr rfl

/-- The recoverable import failure at the concrete run without pycolmap. -/
theorem pycolmap_missing_skips_reconstruction_witness :
    mainRun cfgBase envNoPycolmap = Except.ok (expectedTrace cfgBase pPath fPath mPath false) :=
  (pycolmap_missing_skips_reconstruction cfgBase envNoPycolmap pPath fPath mPath rfl rfl rfl
    (fun _ => rfl) rfl rfl (fun _ => rfl) rfl).1

/-- C5: every completed run executes the pipeline stages in the fixed linear
order — pair generation, upright rotation (if enabled), feature extraction,
pair matching, orientation restoration (if enabled), database export,
reconstruction (if enabled, else the logged skip) — and each stage consumes
an earlier stage's artifact: matching consumes the extracted feature path,
restoration the same feature path, the export the feature and match paths,
and reconstruction the pair, feature and match paths. -/
theorem pipeline_stage_order (config : Config) (env : Env) (t : List Event)
    (h : mainRun config env = Except.ok t) :
    ∃ (p f m : Pathname) (ok : Bool),
      t = [Event.generatePairs p]
        ++ (if config.upright then [Event.rotateUprightImages] else [])
        ++ [Event.extractFeatures f, Event.matchPairs f m]
        ++ (if config.upright then [Event.rotateBackFeatures f] else [])
        ++ [Event.exportToColmap (exportArgsOf config f m)]
        ++ (if ok then [Event.reconstructionMain (reconArgsOf config p f m)]
            else [Event.logError pycolmapMissingMsg]) := by
  obtain ⟨-, p, f, m, ok, rfl⟩ := mainRun_ok_shape config env t h
  exact ⟨p, f, m, ok, by simp [expectedTrace, stageTrace]⟩

/-- The stage order at the concrete all-success run. -/
theorem pipeline_stage_order_witness :
    ∃ (p f m : Pathname) (ok : Bool),
      expectedTrace cfgBase pPath fPath mPath true
        = [Event.generatePairs p]
          ++ (if cfgBase.upright then [Event.rotateUprightImages] else [])
          ++ [Event.extractFeatures f, Event.matchPairs f m]
          ++ (if cfgBase.upright then [Event.rotateBackFeatures f] else [])
          ++ [Event.exportToColmap (exportArgsOf cfgBase f m)]
          ++ (if ok then [Event.reconstructionMain (reconArgsOf cfgBase p f m)]
              else [Event.logError pycolmapMissingMsg]) :=
  pipeline_stage_order cfgBase envOkAll _ mainRun_cfgBase_eval

/-- C6: in every completed run with upright correction on, the feature
restoration acts between matching and database export on exactly the
artifact the matcher produced its matches for and that the export then
consumes — the same feature path, with no new artifact created — and the
restoration itself (modelled from the spec, its body not being in the
orchestrator source) rewrites only keypoint coordinates, preserving
descriptor vectors, order and count. -/
theorem rotate_back_same_artifact_before_export (config : Config) (env : Env) (t : List Event)
    (h : mainRun config env = Except.ok t) (hu : config.upright = true) :
    (∃ (p f m : Pathname) (tail : List Event),
        t = [Event.generatePairs p, Event.rotateUprightImages, Event.extractFeatures f,
              Event.matchPairs f m, Event.rotateBackFeatures f,
              Event.exportToColmap (exportArgsOf config f m)] ++ tail) ∧
      ∀ (r : Rot) (W H : Nat) (ks : List Keypoint),
        (rotateBackKeypoints r W H ks).length = ks.length ∧
          (rotateBackKeypoints r W H ks).map Keypoint.desc = ks.map Keypoint.desc := by
  constructor
  · obtain ⟨-, p, f, m, ok, rfl⟩ := mainRun_ok_shape config env t h
    exact ⟨p, f, m,
      if ok then [Event.reconstructionMain (reconArgsOf config p f m)]
      else [Event.logError pycolmapMissingMsg],
      by simp [expectedTrace, stageTrace, hu]⟩
  · intro r W H ks
    constructor
    · simp [rotateBackKeypoints]
    · simp [rotateBackKeypoints, List.map_map]

/-- The restoration-between-matching-and-export shape at the concrete run. -/
theorem rotate_back_same_artifact_before_export_witness :
    ∃ (p f m : Pathname) (tail : List Event),
      expectedTrace cfgBase pPath fPath mPath true
        = [Event.generatePairs p, Event.rotateUprightImages, Event.extractFeatures f,
            Event.matchPairs f m, Event.rotateBackFeatures f,
            Event.exportToColmap (exportArgsOf cfgBase f m)] ++ tail :=
  (rotate_back_same_artifact_before_export cfgBase envOkAll _ mainRun_cfgBase_eval rfl).1

/-- C7: upright normalization and orientation restoration are gated by the
same configuration flag: in every completed run the upright-rotation event
occurs iff the upright flag is set, and a feature-restoration event occurs
iff the upright-rotation event occurred — with the flag off, no rotation
step touches the trace. -/
theorem upright_gating (config : Config) (env : Env) (t : List Event)
    (h : mainRun config env = Except.ok t) :
    (Event.rotateUprightImages ∈ t ↔ config.upright = true) ∧
      ((∃ f' : Pathname, Event.rotateBackFeatures f' ∈ t) ↔
        Event.rotateUprightImages ∈ t) := by
  obtain ⟨-, p, f, m, ok, rfl⟩ := mainRun_ok_shape config env t h
  constructor
  · exact rotateUpright_mem_expectedTrace config p f m ok
  · constructor
    · rintro ⟨f', hf'⟩
      obtain ⟨hu, -⟩ := (rotateBack_mem_expectedTrace config p f m ok f').mp hf'
      exact (rotateUpright_mem_expectedTrace config p f m ok).mpr hu
    · intro hmem
      have hu := (rotateUpright_mem_expectedTrace config p f m ok).mp hmem
      exact ⟨f, (rotateBack_mem_expectedTrace config p f m ok f).mpr ⟨hu, rfl⟩⟩

/-- The gating equivalence at the concrete all-success run. -/
theorem upright_gating_witness :
    Event.rotateUprightImages ∈ expectedTrace cfgBase pPath fPath mPath true ↔
      cfgBase.upright = true :=
  (upright_gating cfgBase envOkAll _ mainRun_cfgBase_eval).1

/-- C9: whenever a completed run invokes the reconstruction engine, it does
so with camera mode fixed to AUTO, no manually defined cameras, geometric
verification skipped, and empty option overrides — independent of the
configuration. -/
theorem reconstruction_fixed_arguments (config : Config) (env : Env) (t : List Event)
    (a : ReconArgs) (h : mainRun config env = Except.ok t)
    (ha : Event.reconstructionMain a ∈ t) :
    a.camera_mode = CameraMode.AUTO ∧ a.cameras = none ∧
      a.skip_geometric_verification = true ∧ a.options = [] := by
  obtain ⟨-, p, f, m, ok, rfl⟩ := mainRun_ok_shape config env t h
  obtain ⟨rfl, -⟩ := reconMain_mem_expectedTrace config p f m ok a ha
  exact ⟨rfl, rfl, rfl, rfl⟩

/-- The fixed reconstruction arguments at the concrete all-success run. -/
theorem reconstruction_fixed_arguments_witness :
    (reconArgsOf cfgBase pPath fPath mPath).camera_mode = CameraMode.AUTO ∧
      (reconArgsOf cfgBase pPath fPath mPath).cameras = none ∧
      (reconArgsOf cfgBase pPath fPath mPath).skip_geometric_verification = true ∧
      (reconArgsOf cfgBase pPath fPath mPath).options = [] :=
  reconstruction_fixed_arguments cfgBase envOkAll _ (reconArgsOf cfgBase pPath fPath mPath)
    mainRun_cfgBase_eval (by decide)

/-- C10: the only exception `main` intercepts is the `ImportError` of the
`pycolmap` import: an exception raised by pair generation, upright rotation,
feature extraction, matching, orientation restoration or database export
propagates uncaught out of `main`; a non-`ImportError` exception from
the import also propagates; an `ImportError` from the import is caught
and the run still completes. -/
theorem only_importError_intercepted (config : Config) (env : Env) (e : PyExc)
    (p f m : Pathname) :
    (env.generate_pairs = Except.error e → mainRun config env = Except.error e) ∧
    (env.generate_pairs = Except.ok p → config.upright = true →
      env.rotate_upright_images = Except.error e → mainRun config env = Except.error e) ∧
    (env.generate_pairs = Except.ok p →
      (config.upright = true → env.rotate_upright_images = Except.ok ()) →
      env.extract_features = Except.error e → mainRun config env = Except.error e) ∧
    (env.generate_pairs = Except.ok p →
      (config.upright = true → env.rotate_upright_images = Except.ok ()) →
      env.extract_features = Except.ok f →
      env.match_pairs f = Except.error e → mainRun config env = Except.error e) ∧
    (env.generate_pairs = Except.ok p → config.upright = true →
      env.rotate_upright_images = Except.ok () →
      env.extract_features = Except.ok f →
      env.match_pairs f = Except.ok m →
      env.rotate_back_features f = Except.error e → mainRun config env = Except.error e) ∧
    (env.generate_pairs = Except.ok p →
      (config.upright = true → env.rotate_upright_images = Except.ok ()) →
      env.extract_features = Except.ok f →
      env.match_pairs f = Except.ok m →
      (config.upright = true → env.rotate_back_features f = Except.ok ()) →
      env.export_to_colmap (exportArgsOf config f m) = Except.error e →
      mainRun config env = Except.error e) ∧
    (env.generate_pairs = Except.ok p →
      (config.upright = true → env.rotate_upright_images = Except.ok ()) →
      env.extract_features = Except.ok f →
      env.match_pairs f = Except.ok m →
      (config.upright = true → env.rotate_back_features f = Except.ok ()) →
      env.export_to_colmap (exportArgsOf config f m) = Except.ok () →
      config.skip_reconstruction = false →
      env.pycolmapImport = Except.error e → e ≠ PyExc.importError →
      mainRun config env = Except.error e) ∧
    (env.generate_pairs = Except.ok p →
      (config.upright = true → env.rotate_upright_images = Except.ok ()) →
      env.extract_features = Except.ok f →
      env.match_pairs f = Except.ok m →
      (config.upright = true → env.rotate_back_features f = Except.ok ()) →
      env.export_to_colmap (exportArgsOf config f m) = Except.ok () →
      config.skip_reconstruction = false →
      env.pycolmapImport = Except.error PyExc.importError →
      mainRun config env = Except.ok (expectedTrace config p f m false)) := by
  refine ⟨?_, ?_, ?_, ?_, ?_, ?_, ?_, ?_⟩
  · intro h1
    simp [mainRun, h1]
  · intro h1 hu h2
    simp [mainRun, h1, hu, h2]
  · intro h1 hru h2
    cases hu : config.upright
    · simp [mainRun, h1, hu, h2]
    · simp [mainRun, h1, hu, hru hu, h2]
  · intro h1 hru h2 h3
    cases hu : config.upright
    · simp [mainRun, h1, hu, h2, h3]
    · simp [mainRun, h1, hu, hru hu, h2, h3]
  · intro h1 hu h2 h3 h4 h5
    simp [mainRun, h1, hu, h2, h3, h4, h5]
  · intro h1 hru h2 h3 hrb h4
    cases hu : config.upright
    · simp [mainRun, h1, hu, h2, h3, h4]
    · simp [mainRun, h1, hu, hru hu, h2, h3, hrb hu, h4]
  · intro h1 hru h2 h3 hrb h4 hskip himp hne
    rw [mainRun_eq_pycolmapPhase config env p f m h1 hru h2 h3 hrb h4]
    simp [pycolmapStep, hskip, himp, hne]
  · intro h1 hru h2 h3 hrb h4 hskip himp
    rw [mainRun_eq_pycolmapPhase config env p f m h1 hru h2 h3 hrb h4]
    simp [pycolmapStep, hskip, himp]

/-- Propagation of a pair-generation exception at a concrete run. -/
theorem only_importError_intercepted_witness :
    mainRun cfgBase envGpFail = Except.error (PyExc.other "boom") :=
  (only_importError_intercepted cfgBase envGpFail (PyExc.other "boom") pPath fPath mPath).1 rfl

end DeepImageMatching
